import Mathlib

/-!
Verification of the vehicle-detection dashboard backend (src/backend/main.py).

The backend is a FastAPI service over a single flat PostgreSQL table of
per-camera, per-timestamp vehicle counts.  We embed the query/aggregation
logic of each endpoint as executable Lean functions.

Modelling conventions:
* Instants are `Nat` microseconds since 0001-01-01 00:00:00 UTC (the
  proleptic Gregorian epoch used by Python's `datetime`), so
  `replace(hour=0, ...)` is truncation to a multiple of `usecPerDay`,
  `date_trunc('hour', ts)` is truncation to a multiple of `usecPerHour`,
  and `EXTRACT(minute FROM ts)` is `ts % usecPerHour / usecPerMin`.
* The SQL table is a `List Rec`; grouped-sum queries are embedded as
  filter / group-by-key / fold over that list.
* HTTP handlers return `Except Nat α` where the `Nat` is the HTTP status
  of a raised `HTTPException`.
-/

namespace VehicleDashboard

/-! ## Time arithmetic -/

def usecPerSec : Nat := 1000000

def usecPerMin : Nat := 60 * usecPerSec

def usecPerHour : Nat := 60 * usecPerMin

def usecPerDay : Nat := 24 * usecPerHour

/-- `date_trunc('hour', ts)` / `.replace(minute=0, second=0, microsecond=0)`. -/
def truncHour (ts : Nat) : Nat := ts / usecPerHour * usecPerHour

/-- `.replace(hour=0, minute=0, second=0, microsecond=0)` / `CURRENT_DATE`. -/
def truncDay (ts : Nat) : Nat := ts / usecPerDay * usecPerDay

/-- `EXTRACT(minute FROM ts)`: the minute-of-hour component. -/
def minuteOfHour (ts : Nat) : Nat := ts % usecPerHour / usecPerMin

/-! ## Proleptic Gregorian calendar (as used by `datetime.fromisoformat`) -/

def isLeap (y : Nat) : Bool := (y % 4 == 0 && y % 100 != 0) || y % 400 == 0

def daysInMonth (y m : Nat) : Nat :=
  match m with
  | 1 => 31
  | 2 => if isLeap y then 29 else 28
  | 3 => 31
  | 4 => 30
  | 5 => 31
  | 6 => 30
  | 7 => 31
  | 8 => 31
  | 9 => 30
  | 10 => 31
  | 11 => 30
  | 12 => 31
  | _ => 0

def daysBeforeMonth (y m : Nat) : Nat :=
  (match m with
  | 1 => 0
  | 2 => 31
  | 3 => 59
  | 4 => 90
  | 5 => 120
  | 6 => 151
  | 7 => 181
  | 8 => 212
  | 9 => 243
  | 10 => 273
  | 11 => 304
  | 12 => 334
  | _ => 0) + (if 3 ≤ m && isLeap y then 1 else 0)

/-- Days from 0001-01-01 to year `y`, month `m`, day `d` (proleptic Gregorian). -/
def daysFromCivil (y m d : Nat) : Nat :=
  365 * (y - 1) + (y - 1) / 4 - (y - 1) / 100 + (y - 1) / 400
    + daysBeforeMonth y m + (d - 1)

/-- Midnight of a calendar date, in microseconds since the epoch. -/
def dateUsec (y m d : Nat) : Nat := daysFromCivil y m d * usecPerDay

/-! ## `datetime.fromisoformat`

Python's `datetime.fromisoformat` parses `YYYY-MM-DD[*HH[:MM[:SS[.fff[fff]]]]]`
(`*` any single separator character), validating calendar ranges, and raises
`ValueError` otherwise.  We embed it as an `Option Nat` returning the parsed
instant in microseconds. -/

def digitVal (c : Char) : Nat := c.toNat - 48

def twoDigits (a b : Char) : Option Nat :=
  if a.isDigit && b.isDigit then some (digitVal a * 10 + digitVal b) else none

def fourDigits (a b c d : Char) : Option Nat :=
  if a.isDigit && b.isDigit && c.isDigit && d.isDigit then
    some (digitVal a * 1000 + digitVal b * 100 + digitVal c * 10 + digitVal d)
  else none

def fracUsec (cs : List Char) : Option Nat :=
  if cs.all Char.isDigit then
    let v := cs.foldl (fun acc c => acc * 10 + digitVal c) 0
    if cs.length == 3 then some (v * 1000)
    else if cs.length == 6 then some v
    else none
  else none

/-- Parse the `HH[:MM[:SS[.fff[fff]]]]` tail; the whole list must be consumed. -/
def parseTimePart : List Char → Option Nat
  | [h1, h2] =>
    (twoDigits h1 h2).bind fun h =>
      if h < 24 then some (h * usecPerHour) else none
  | [h1, h2, ':', m1, m2] =>
    (twoDigits h1 h2).bind fun h =>
      (twoDigits m1 m2).bind fun mi =>
        if h < 24 && mi < 60 then some (h * usecPerHour + mi * usecPerMin) else none
  | [h1, h2, ':', m1, m2, ':', s1, s2] =>
    (twoDigits h1 h2).bind fun h =>
      (twoDigits m1 m2).bind fun mi =>
        (twoDigits s1 s2).bind fun s =>
          if h < 24 && mi < 60 && s < 60 then
            some (h * usecPerHour + mi * usecPerMin + s * usecPerSec)
          else none
  | h1 :: h2 :: ':' :: m1 :: m2 :: ':' :: s1 :: s2 :: '.' :: frac =>
    (twoDigits h1 h2).bind fun h =>
      (twoDigits m1 m2).bind fun mi =>
        (twoDigits s1 s2).bind fun s =>
          (fracUsec frac).bind fun f =>
            if h < 24 && mi < 60 && s < 60 then
              some (h * usecPerHour + mi * usecPerMin + s * usecPerSec + f)
            else none
  | _ => none

/-- Parse the leading `YYYY-MM-DD`; returns the instant at midnight and the rest. -/
def parseDatePart : List Char → Option (Nat × List Char)
  | y1 :: y2 :: y3 :: y4 :: '-' :: m1 :: m2 :: '-' :: d1 :: d2 :: rest =>
    (fourDigits y1 y2 y3 y4).bind fun y =>
      (twoDigits m1 m2).bind fun m =>
        (twoDigits d1 d2).bind fun d =>
          if 1 ≤ y && 1 ≤ m && m ≤ 12 && 1 ≤ d && d ≤ daysInMonth y m then
            some (dateUsec y m d, rest)
          else none
  | _ => none

/-- `datetime.fromisoformat`: `none` models a raised `ValueError`. -/
def fromisoformat (s : String) : Option Nat :=
  match parseDatePart s.toList with
  | some (dt, []) => some dt
  | some (dt, _sep :: rest) => (parseTimePart rest).map (fun t => dt + t)
  | none => none

/-! ## Data model

`VehicleCount` rows of table `jaloli_thresholds_detections_counts`
(the surrogate `id` key plays no role in the queries we model, except as
`COUNT(id)` = row count, so it is omitted). -/

structure Rec where
  timestamp : Nat
  camera_id : String
  car : Int
  bike : Int
  truck : Int
  bus : Int
  auto : Int
  total : Int
deriving DecidableEq

/-- The `VehicleCountResponse` schema (and the shape of aggregate rows). -/
structure Row where
  timestamp : Nat
  camera_id : String
  car : Int
  bike : Int
  truck : Int
  bus : Int
  auto : Int
  total : Int
deriving DecidableEq

/-- Every endpoint guards its camera filter with `if camera_id:` — Python
truthiness, so `None` and `""` both skip the filter. -/
def camFilter (cam : Option String) (recs : List Rec) : List Rec :=
  match cam with
  | none => recs
  | some c => if c = "" then recs else recs.filter (fun r => r.camera_id = c)

/-! ## Grouped-sum aggregation

`SELECT bucket, camera_id, SUM(car), ..., SUM(total) ... GROUP BY bucket,
camera_id ORDER BY bucket`: group the (already range/camera filtered) rows
by `(bucket timestamp, camera_id)`, sum each column per group, and order
groups by ascending bucket time.  A key's group is never empty, so the
per-column sums are never SQL `NULL`; the handler's `int(x) if x is not
None else 0` coercion is therefore the identity and the sums appear
directly. -/

def sumBy (f : Rec → Int) (recs : List Rec) : Int := (recs.map f).sum

def mkRow (key : Nat × String) (recs : List Rec) : Row :=
  { timestamp := key.1
    camera_id := key.2
    car := sumBy (fun r => r.car) recs
    bike := sumBy (fun r => r.bike) recs
    truck := sumBy (fun r => r.truck) recs
    bus := sumBy (fun r => r.bus) recs
    auto := sumBy (fun r => r.auto) recs
    total := sumBy (fun r => r.total) recs }

def groupKeys (bucket : Nat → Nat) (recs : List Rec) : List (Nat × String) :=
  ((recs.map (fun r => (bucket r.timestamp, r.camera_id))).dedup).insertionSort
    (fun a b => a.1 ≤ b.1)

def aggregateBy (bucket : Nat → Nat) (recs : List Rec) : List Row :=
  (groupKeys bucket recs).map
    (fun k => mkRow k (recs.filter (fun r => bucket r.timestamp = k.1 ∧ r.camera_id = k.2)))

/-! ## `/api/vehicle-counts/secondly` (`get_secondly_data`) -/

/-- `WHERE timestamp >= now - 1 minute` + camera filter +
`ORDER BY timestamp DESC LIMIT 60`. -/
def secondlyPrimary (db : List Rec) (now : Nat) (cam : Option String) : List Rec :=
  ((camFilter cam (db.filter (fun r => now - usecPerMin ≤ r.timestamp))).insertionSort
    (fun a b => b.timestamp ≤ a.timestamp)).take 60

/-- The fallback query: identical, minus the time-range predicate. -/
def secondlyFallback (db : List Rec) (cam : Option String) : List Rec :=
  ((camFilter cam db).insertionSort (fun a b => b.timestamp ≤ a.timestamp)).take 60

/-- `get_secondly_data`, instrumented with a flag recording whether the
fallback query was issued (code: `if len(results) == 0: ... fallback`). -/
def getSecondly (db : List Rec) (now : Nat) (cam : Option String) : Bool × List Rec :=
  let results := secondlyPrimary db now cam
  if results.isEmpty then (true, secondlyFallback db cam) else (false, results)

/-- The HTTP result of `get_secondly_data`; the only `raise` is on a storage
exception, which the embedding (a pure list) cannot produce. -/
def getSecondlyResult (db : List Rec) (now : Nat) (cam : Option String) :
    Except Nat (List Rec) :=
  .ok (getSecondly db now cam).2

/-! ## `/api/vehicle-counts/hourly` (`get_hourly_data`) -/

/-- `SELECT MIN(timestamp) ... WHERE timestamp >= CURRENT_DATE`
(+ camera filter when `camera_id` is truthy). -/
def minTsToday (db : List Rec) (now : Nat) (cam : Option String) : Option Nat :=
  match (camFilter cam (db.filter (fun r => truncDay now ≤ r.timestamp))).map
      (fun r => r.timestamp) with
  | [] => none
  | t :: ts => some (ts.foldl min t)

/-- `get_hourly_data`.  The handler computes
`end_time = utcnow().replace(minute=0, second=0, microsecond=0)` and passes
it as a bind parameter, but the SQL text never references `:end_time`: the
only upper bound in the query is
`timestamp <= DATE_TRUNC('day', NOW()) + INTERVAL '21 hours'`. -/
def getHourly (db : List Rec) (now : Nat) (cam : Option String) : List Row :=
  match minTsToday db now cam with
  | none => []
  | some start_time =>
    aggregateBy truncHour
      (camFilter cam (db.filter
        (fun r => start_time ≤ r.timestamp ∧
          r.timestamp ≤ truncDay now + 21 * usecPerHour)))

/-! ## `/api/vehicle-counts/daily` (`get_daily_data`) -/

/-- `datetime.fromisoformat(start_date)` when given (then
`.replace(hour=0, minute=0, second=0, microsecond=0)`), else
`utcnow() - timedelta(days=1)` truncated to the day.
`none` models the `ValueError` branch. -/
def parseStartDT (now : Nat) (start_date : Option String) : Option Nat :=
  match start_date with
  | some s => (fromisoformat s).map truncDay
  | none => some (truncDay (now - usecPerDay))

/-- `datetime.fromisoformat(end_date)` when given, else `start_datetime`;
then `.replace(hour=23, minute=59, second=59, microsecond=999999)`,
i.e. last microsecond of that calendar day. -/
def parseEndDT (start_datetime : Nat) (end_date : Option String) : Option Nat :=
  match end_date with
  | some e => (fromisoformat e).map (fun t => truncDay t + (usecPerDay - 1))
  | none => some (start_datetime + (usecPerDay - 1))

/-- `if interval_minutes < 1 or interval_minutes > 60: interval_minutes = 10`. -/
def clampInterval (interval_minutes : Int) : Int :=
  if interval_minutes < 1 ∨ interval_minutes > 60 then 10 else interval_minutes

/-- The daily bucket key:
`date_trunc('hour', ts) + FLOOR(EXTRACT(minute FROM ts) / iv) * iv * '1 minute'`. -/
def dailyBucket (iv : Nat) (ts : Nat) : Nat :=
  truncHour ts + minuteOfHour ts / iv * iv * usecPerMin

/-- The body of `get_daily_data` up to (and including) the `raise
HTTPException(status_code=400, ...)` on a date-parse `ValueError`; the
grouped query itself cannot fail in the embedding. -/
def getDailyInner (db : List Rec) (now : Nat) (interval_minutes : Int)
    (start_date end_date cam : Option String) : Except Nat (List Row) :=
  match parseStartDT now start_date with
  | none => .error 400
  | some start_datetime =>
    match parseEndDT start_datetime end_date with
    | none => .error 400
    | some end_datetime =>
      let iv := (clampInterval interval_minutes).toNat
      .ok (aggregateBy (dailyBucket iv)
        (camFilter cam (db.filter
          (fun r => start_datetime ≤ r.timestamp ∧ r.timestamp ≤ end_datetime))))

/-- `get_daily_data` as observed over HTTP: the whole body sits in an outer
`try` whose `except Exception as outer_e` catches *every* exception —
including the `HTTPException(400)` raised for a malformed date, since
FastAPI's `HTTPException` subclasses `Exception` — and re-raises
`HTTPException(status_code=500, detail="Processing error")`. -/
def getDaily (db : List Rec) (now : Nat) (interval_minutes : Int)
    (start_date end_date cam : Option String) : Except Nat (List Row) :=
  match getDailyInner db now interval_minutes start_date end_date cam with
  | .error _ => .error 500
  | .ok v => .ok v

/-! ## `/api/vehicle-counts/summary` (`get_summary`) -/

/-- Python's `round`: round half to even (banker's rounding). -/
def pyRound (q : ℚ) : Int :=
  let f : Int := ⌊q⌋
  let frac : ℚ := q - (f : ℚ)
  if frac < 1 / 2 then f
  else if frac > 1 / 2 then f + 1
  else if f % 2 = 0 then f else f + 1

/-- `AVG(total)` over a list of rows (the group is nonempty whenever this
is consulted, so the `0 / 0` case never feeds a surfaced value). -/
def avgTotal (recs : List Rec) : ℚ :=
  ((recs.map (fun r => r.total)).sum : ℚ) / (recs.length : ℚ)

/-- `ORDER BY hourly_avg DESC LIMIT 1` + `.first()`: an element of maximal
average, `none` on an empty group list.  Ties are broken arbitrarily by the
database sort; the embedding keeps the first maximal element. -/
def pickPeak : List (Nat × ℚ) → Option (Nat × ℚ)
  | [] => none
  | x :: xs => some (xs.foldl (fun b a => if b.2 < a.2 then a else b) x)

/-- The summary payload.  `peak_hour` is surfaced as
`hour.strftime('%H:%M')`; we keep the hour-bucket instant itself (`none` =
JSON `null`).  The five totals and `all` are `COALESCE(SUM(...), 0)` values;
Python's `round` on these integers is the identity. -/
structure Summary where
  date : Nat
  cars : Int
  bikes : Int
  trucks : Int
  buses : Int
  autos : Int
  all : Int
  peak_hour : Option Nat
  peak_hour_count : Int
  record_count : Nat
deriving DecidableEq

/-- `today_start`: `fromisoformat(start_date)` truncated to midnight when
given (`none` = `ValueError`), else `utcnow()` truncated to midnight. -/
def summaryStart (now : Nat) (start_date : Option String) : Option Nat :=
  match start_date with
  | some s => (fromisoformat s).map truncDay
  | none => some (truncDay now)

/-- The body of `get_summary` up to the `HTTPException(400)` on a
date-parse `ValueError`. -/
def getSummaryInner (db : List Rec) (now : Nat)
    (start_date cam : Option String) : Except Nat Summary :=
  match summaryStart now start_date with
  | none => .error 400
  | some today_start =>
    let today_end := today_start + (usecPerDay - 1)
    let recs := camFilter cam (db.filter
      (fun r => today_start ≤ r.timestamp ∧ r.timestamp ≤ today_end))
    let hours := ((recs.map (fun r => truncHour r.timestamp)).dedup).map
      (fun h => (h, avgTotal (recs.filter (fun r => truncHour r.timestamp = h))))
    let peak := pickPeak hours
    .ok
      { date := today_start
        cars := sumBy (fun r => r.car) recs
        bikes := sumBy (fun r => r.bike) recs
        trucks := sumBy (fun r => r.truck) recs
        buses := sumBy (fun r => r.bus) recs
        autos := sumBy (fun r => r.auto) recs
        all := sumBy (fun r => r.total) recs
        peak_hour := peak.map (fun p => p.1)
        peak_hour_count :=
          match peak with
          | some p => if p.2 = 0 then 0 else pyRound p.2
          | none => 0
        record_count := recs.length }

/-- `get_summary` as observed over HTTP: as in `get_daily_data`, the outer
`except Exception as e` catches the `HTTPException(400)` raised for a
malformed date and re-raises `HTTPException(status_code=500, ...)`. -/
def getSummary (db : List Rec) (now : Nat) (start_date cam : Option String) :
    Except Nat Summary :=
  match getSummaryInner db now start_date cam with
  | .error _ => .error 500
  | .ok v => .ok v

/-! ## `/api/cameras` (`get_cameras`) -/

/-- The table name declared on the `VehicleCount` model
(`__tablename__`), which every aggregation query also spells inline. -/
def detectionsTable : String := "jaloli_thresholds_detections_counts"

/-- The table name hard-coded in `get_cameras`' SQL text (note the
hyphens). -/
def camerasQueryTable : String := "jaloli_thresholds-detections-counts"

/-- The persisted store: the set of existing table names, and the rows of
the detections table (the only table the declared schema contains). -/
structure Store where
  tables : List String
  recs : List Rec

/-- Executing a SQL text against a named table: referencing a table that
does not exist raises a database error, surfaced as HTTP 500 by the
handler's `except` block. -/
def execOn (st : Store) (table : String) (k : List Rec → α) : Except Nat α :=
  if table ∈ st.tables then .ok (k st.recs) else .error 500

/-- `get_cameras`: `SELECT DISTINCT camera_id FROM
"jaloli_thresholds-detections-counts" ORDER BY camera_id`. -/
def getCameras (st : Store) : Except Nat (List String) :=
  execOn st camerasQueryTable
    (fun recs => ((recs.map (fun r => r.camera_id)).dedup).insertionSort (fun a b => a ≤ b))

/-- What the spec describes: the distinct camera list of the detections
table itself, ordered by `camera_id`. -/
def specCameras (st : Store) : List String :=
  ((st.recs.map (fun r => r.camera_id)).dedup).insertionSort (fun a b => a ≤ b)

/-! ## Helper lemmas -/

theorem camFilter_some_eq_camFilter_none : camFilter (some "") = camFilter none := by
  funext recs
  simp [camFilter]

theorem mem_of_mem_camFilter {cam : Option String} {recs : List Rec} {r : Rec}
    (h : r ∈ camFilter cam recs) : r ∈ recs := by
  cases cam with
  | none => exact h
  | some c =>
    by_cases hc : c = ""
    · simpa [camFilter, hc] using h
    · rw [camFilter, if_neg hc] at h
      exact (List.mem_filter.1 h).1

theorem mkRow_timestamp (k : Nat × String) (recs : List Rec) :
    (mkRow k recs).timestamp = k.1 := rfl

theorem mem_aggregateBy {bucket : Nat → Nat} {recs : List Rec} {row : Row}
    (h : row ∈ aggregateBy bucket recs) :
    ∃ r ∈ recs, row.timestamp = bucket r.timestamp := by
  unfold aggregateBy groupKeys at h
  obtain ⟨k, hk, hrow⟩ := List.mem_map.1 h
  rw [List.mem_insertionSort, List.mem_dedup] at hk
  obtain ⟨r, hr, hkey⟩ := List.mem_map.1 hk
  exact ⟨r, hr, by rw [← hrow, mkRow_timestamp, ← hkey]⟩

theorem dedup_map_const {α β : Type} [DecidableEq β] (f : α → β) (k : β) :
    ∀ l : List α, l ≠ [] → (∀ x ∈ l, f x = k) → (l.map f).dedup = [k] := by
  intro l
  induction l with
  | nil => intro h; exact absurd rfl h
  | cons x t ih =>
    intro _ hall
    cases t with
    | nil => simp [hall x (by simp)]
    | cons y u =>
      have h1 : ((y :: u).map f).dedup = [k] :=
        ih (by simp) (fun z hz => hall z (List.mem_cons_of_mem _ hz))
      rw [List.map_cons, List.dedup_cons_of_mem]
      · exact h1
      · rw [hall x (by simp), ← List.mem_dedup] at *
        rw [h1]
        simp

theorem truncHour_le (ts : Nat) : truncHour ts ≤ ts := Nat.div_mul_le_self ts usecPerHour

theorem truncHour_mono {a b : Nat} (h : a ≤ b) : truncHour a ≤ truncHour b :=
  Nat.mul_le_mul_right usecPerHour (Nat.div_le_div_right h)

theorem truncHour_eq_of_mod {a : Nat} (h : a % usecPerHour = 0) : truncHour a = a :=
  Nat.div_mul_cancel (Nat.dvd_of_mod_eq_zero h)

theorem truncDay_mod_hour (x : Nat) : truncDay x % usecPerHour = 0 := by
  have : truncDay x = x / usecPerDay * 24 * usecPerHour := by
    unfold truncDay usecPerDay
    ring
  rw [this]
  exact Nat.mul_mod_left _ _

theorem dailyBucket_le (iv ts : Nat) : dailyBucket iv ts ≤ ts := by
  have h1 : minuteOfHour ts / iv * iv ≤ minuteOfHour ts := Nat.div_mul_le_self _ _
  have h2 : minuteOfHour ts * usecPerMin ≤ ts % usecPerHour := by
    unfold minuteOfHour
    exact Nat.div_mul_le_self _ _
  have h3 : truncHour ts + ts % usecPerHour = ts := Nat.div_add_mod' ts usecPerHour
  have h4 : minuteOfHour ts / iv * iv * usecPerMin ≤ minuteOfHour ts * usecPerMin :=
    Nat.mul_le_mul_right _ h1
  calc dailyBucket iv ts
      ≤ truncHour ts + minuteOfHour ts * usecPerMin := Nat.add_le_add_left h4 _
    _ ≤ truncHour ts + ts % usecPerHour := Nat.add_le_add_left h2 _
    _ = ts := h3

theorem le_dailyBucket {start iv ts : Nat} (hmod : start % usecPerHour = 0)
    (h : start ≤ ts) : start ≤ dailyBucket iv ts := by
  calc start = truncHour start := (truncHour_eq_of_mod hmod).symm
    _ ≤ truncHour ts := truncHour_mono h
    _ ≤ dailyBucket iv ts := Nat.le_add_right _ _

/-- Rows of `getDaily` output stay inside the parsed `[start, end]` range. -/
theorem getDaily_row_range {db : List Rec} {now : Nat} {iv : Int}
    {sd ed cam : Option String} {start e : Nat} {rows : List Row} {row : Row}
    (hs : parseStartDT now sd = some start)
    (he : parseEndDT start ed = some e)
    (hmod : start % usecPerHour = 0)
    (hrows : getDaily db now iv sd ed cam = .ok rows)
    (hrow : row ∈ rows) :
    start ≤ row.timestamp ∧ row.timestamp ≤ e := by
  have hinner : getDailyInner db now iv sd ed cam = .ok rows := by
    unfold getDaily at hrows
    revert hrows
    cases getDailyInner db now iv sd ed cam with
    | error code => intro h; cases h
    | ok v => intro h; cases h; rfl
  simp only [getDailyInner, hs, he, Except.ok.injEq] at hinner
  rw [← hinner] at hrow
  obtain ⟨r, hrmem, hts⟩ := mem_aggregateBy hrow
  have hr2 : r ∈ db.filter (fun r => start ≤ r.timestamp ∧ r.timestamp ≤ e) :=
    mem_of_mem_camFilter hrmem
  have hpred := (List.mem_filter.1 hr2).2
  have hpred2 : start ≤ r.timestamp ∧ r.timestamp ≤ e := by simpa using hpred
  constructor
  · rw [hts]
    exact le_dailyBucket hmod hpred2.1
  · rw [hts]
    exact le_trans (dailyBucket_le _ _) hpred2.2

theorem truncDay_dateUsec (y m d : Nat) : truncDay (dateUsec y m d) = dateUsec y m d := by
  unfold truncDay dateUsec
  rw [Nat.mul_div_cancel _ (show 0 < usecPerDay from by decide)]

theorem dateUsec_mod_hour (y m d : Nat) : dateUsec y m d % usecPerHour = 0 := by
  unfold dateUsec usecPerDay
  rw [show daysFromCivil y m d * (24 * usecPerHour)
      = daysFromCivil y m d * 24 * usecPerHour from by ring]
  exact Nat.mul_mod_left _ _

/-! ## Claims -/

/-- C1: the spec says a malformed `start_date`/`end_date` on the daily or
summary endpoint yields HTTP 400.  The handlers do raise
`HTTPException(400, "Invalid date format...")` internally, but each body
sits in an outer `except Exception` that catches that very exception
(FastAPI's `HTTPException` subclasses `Exception`) and re-raises HTTP 500,
so the observable response for a malformed date is a 500 server error. -/
theorem claim_C1 (db : List Rec) (now : Nat) (iv : Int) (ed cam : Option String)
    (s : String) (hbad : fromisoformat s = none) :
    getDailyInner db now iv (some s) ed cam = .error 400
    ∧ getDaily db now iv (some s) ed cam = .error 500
    ∧ getSummaryInner db now (some s) cam = .error 400
    ∧ getSummary db now (some s) cam = .error 500 := by
  have h1 : parseStartDT now (some s) = none := by simp [parseStartDT, hbad]
  have h2 : summaryStart now (some s) = none := by simp [summaryStart, hbad]
  have hdi : getDailyInner db now iv (some s) ed cam = .error 400 := by
    simp [getDailyInner, h1]
  have hsi : getSummaryInner db now (some s) cam = .error 400 := by
    simp [getSummaryInner, h2]
  exact ⟨hdi, by simp [getDaily, hdi], hsi, by simp [getSummary, hsi]⟩

/-- C1 witness: concrete malformed date string. -/
theorem claim_C1_witness :
    fromisoformat "not-a-date" = none
    ∧ getDaily [] 0 10 (some "not-a-date") none none = .error 500
    ∧ getSummary [] 0 (some "not-a-date") none = .error 500 :=
  ⟨by decide,
   (claim_C1 [] 0 10 none none "not-a-date" (by decide)).2.1,
   (claim_C1 [] 0 10 none none "not-a-date" (by decide)).2.2.2⟩

/-- C3: the cameras endpoint does not read the persisted detections table:
its SQL names `"jaloli_thresholds-detections-counts"` (hyphens) while the
declared model table — the one every aggregation endpoint reads — is
`"jaloli_thresholds_detections_counts"` (underscores).  Against the
declared single-table schema the query therefore fails (HTTP 500) instead
of returning the distinct camera list. -/
theorem claim_C3 (st : Store) (hschema : st.tables = [detectionsTable]) :
    camerasQueryTable ≠ detectionsTable ∧ getCameras st = .error 500 := by
  constructor
  · decide
  · unfold getCameras execOn
    rw [hschema, if_neg]
    intro h
    rw [List.mem_singleton] at h
    exact absurd h (by decide)

/-- C3 witness: a store holding exactly the declared schema. -/
theorem claim_C3_witness :
    camerasQueryTable ≠ detectionsTable
    ∧ getCameras ⟨[detectionsTable], [⟨0, "A", 0, 0, 0, 0, 0, 0⟩]⟩ = .error 500 :=
  claim_C3 ⟨[detectionsTable], [⟨0, "A", 0, 0, 0, 0, 0, 0⟩]⟩ rfl

/-- C4: an `interval_minutes` outside `[1, 60]` silently falls back to the
default 10 (the request then behaves exactly as `interval_minutes = 10`),
while an in-range value is used as given. -/
theorem claim_C4 (db : List Rec) (now : Nat) (i : Int) (sd ed cam : Option String) :
    ((i < 1 ∨ i > 60) → getDaily db now i sd ed cam = getDaily db now 10 sd ed cam)
    ∧ (1 ≤ i ∧ i ≤ 60 → clampInterval i = i) := by
  constructor
  · intro h
    have hc : clampInterval i = 10 := by
      unfold clampInterval
      rw [if_pos h]
    have hin : getDailyInner db now i sd ed cam = getDailyInner db now 10 sd ed cam := by
      unfold getDailyInner
      rw [hc, show clampInterval 10 = 10 from by decide]
    unfold getDaily
    rw [hin]
  · intro h
    unfold clampInterval
    rw [if_neg (by omega)]

/-- C4 witness: `interval_minutes = 61` behaves as `10`; `42` is kept. -/
theorem claim_C4_witness :
    getDaily [] 0 61 none none none = getDaily [] 0 10 none none none
    ∧ clampInterval 42 = 42 :=
  ⟨(claim_C4 [] 0 61 none none none).1 (Or.inr (by norm_num)),
   (claim_C4 [] 0 42 none none none).2 (by norm_num)⟩

/-- C5: the secondly fallback query (camera filter, descending order and
limit 60 as in `secondlyFallback`, no time predicate) is issued iff the
primary windowed query returns zero rows, and it is one-shot: an empty
fallback yields an empty 200 response, not an error. -/
theorem claim_C5 (db : List Rec) (now : Nat) (cam : Option String) :
    ((getSecondly db now cam).1 = true ↔ secondlyPrimary db now cam = [])
    ∧ (secondlyPrimary db now cam = [] →
        (getSecondly db now cam).2 = secondlyFallback db cam)
    ∧ (secondlyPrimary db now cam ≠ [] →
        (getSecondly db now cam).2 = secondlyPrimary db now cam)
    ∧ (secondlyPrimary db now cam = [] → secondlyFallback db cam = [] →
        getSecondlyResult db now cam = .ok []) := by
  unfold getSecondlyResult getSecondly
  by_cases h : secondlyPrimary db now cam = []
  · simp [h]
  · simp [h, List.isEmpty_iff]

/-- C5 witness: on an empty store the primary window is empty, the fallback
is taken, and the overall result is an empty success. -/
theorem claim_C5_witness :
    ((getSecondly [] 0 none).1 = true ↔ secondlyPrimary [] 0 none = [])
    ∧ (getSecondly [] 0 none).2 = secondlyFallback [] none
    ∧ getSecondlyResult [] 0 none = .ok [] :=
  ⟨(claim_C5 [] 0 none).1,
   (claim_C5 [] 0 none).2.1 rfl,
   (claim_C5 [] 0 none).2.2.2 rfl rfl⟩

/-- C7: a summary request over a day with zero matching records reports all
category totals and `total_vehicles.all` as 0, `peak_hour` as `null`,
`peak_hour_count` as 0 and `record_count` as 0. -/
theorem claim_C7 (db : List Rec) (now start : Nat) (sd cam : Option String)
    (hs : summaryStart now sd = some start)
    (hempty : camFilter cam (db.filter
      (fun r => start ≤ r.timestamp ∧ r.timestamp ≤ start + (usecPerDay - 1))) = []) :
    getSummary db now sd cam =
      .ok { date := start, cars := 0, bikes := 0, trucks := 0, buses := 0, autos := 0,
            all := 0, peak_hour := none, peak_hour_count := 0, record_count := 0 } := by
  have hempty2 : camFilter cam (db.filter
      (fun r => decide (start ≤ r.timestamp) && decide (r.timestamp ≤ start + (usecPerDay - 1)))) = [] := by
    simpa using hempty
  simp [getSummary, getSummaryInner, hs, hempty2, sumBy, pickPeak]

/-- C7 witness: empty store, default (today) summary. -/
theorem claim_C7_witness :
    getSummary [] 0 none none =
      .ok { date := 0, cars := 0, bikes := 0, trucks := 0, buses := 0, autos := 0,
            all := 0, peak_hour := none, peak_hour_count := 0, record_count := 0 } :=
  claim_C7 [] 0 0 none none rfl rfl

/-- C9: supplying `camera_id=""` is Python-falsy in every `if camera_id:`
guard, so each endpoint behaves exactly as if the parameter were omitted. -/
theorem claim_C9 (db : List Rec) (now : Nat) (iv : Int) (sd ed : Option String) :
    getSecondly db now (some "") = getSecondly db now none
    ∧ getHourly db now (some "") = getHourly db now none
    ∧ getDaily db now iv sd ed (some "") = getDaily db now iv sd ed none
    ∧ getSummary db now sd (some "") = getSummary db now sd none := by
  refine ⟨?_, ?_, ?_, ?_⟩ <;>
    simp [getSecondly, secondlyPrimary, secondlyFallback, getHourly, minTsToday,
      getDaily, getDailyInner, getSummary, getSummaryInner,
      camFilter_some_eq_camFilter_none]

/-- C2 counterexample: the claim says the effective hourly range ends at
the start of the current hour (with the extra 21:00 cutoff).  But the
handler's SQL never references its computed `:end_time` parameter — the
only upper bound is the 21:00 one — so with records today at 08:30 and
15:30 and the clock at 10:45, a bucket at 15:00 is returned, strictly past
`min(start of current hour, 21:00) = 10:00`. -/
theorem claim_C2_counterexample :
    ∃ row ∈ getHourly
        [⟨8 * usecPerHour + 30 * usecPerMin, "A", 1, 1, 1, 1, 1, 5⟩,
         ⟨15 * usecPerHour + 30 * usecPerMin, "A", 2, 2, 2, 2, 2, 10⟩]
        (10 * usecPerHour + 45 * usecPerMin) none,
      ¬ (row.timestamp ≤
          min (truncHour (10 * usecPerHour + 45 * usecPerMin))
            (truncDay (10 * usecPerHour + 45 * usecPerMin) + 21 * usecPerHour)) := by
  decide

/-- C2 (amended): the hourly range starts at the earliest record timestamp
of the current UTC day (for the camera-filtered set) and ends at 21:00 UTC
of the current day only — the start-of-current-hour bound the handler
computes is never applied.  Every returned bucket's hour is between the
hour of that earliest timestamp and 21:00. -/
theorem claim_C2 (db : List Rec) (now : Nat) (cam : Option String) (row : Row)
    (hrow : row ∈ getHourly db now cam) :
    (∃ m, minTsToday db now cam = some m ∧ truncHour m ≤ row.timestamp)
    ∧ row.timestamp ≤ truncDay now + 21 * usecPerHour := by
  unfold getHourly at hrow
  split at hrow
  · exact absurd hrow (by simp)
  next m hm =>
    obtain ⟨r, hrmem, hts⟩ := mem_aggregateBy hrow
    have hr2 := mem_of_mem_camFilter hrmem
    have hpred := (List.mem_filter.1 hr2).2
    have hp : m ≤ r.timestamp ∧ r.timestamp ≤ truncDay now + 21 * usecPerHour := by
      simpa using hpred
    refine ⟨⟨m, hm, ?_⟩, ?_⟩
    · rw [hts]
      exact truncHour_mono hp.1
    · rw [hts]
      exact le_trans (truncHour_le _) hp.2

/-- C2 witness: the 08:00 bucket of the counterexample store lies between
the hour of the earliest record (08:00) and the 21:00 cutoff. -/
theorem claim_C2_witness :
    (∃ m, minTsToday
        [⟨8 * usecPerHour + 30 * usecPerMin, "A", 1, 1, 1, 1, 1, 5⟩,
         ⟨15 * usecPerHour + 30 * usecPerMin, "A", 2, 2, 2, 2, 2, 10⟩]
        (10 * usecPerHour + 45 * usecPerMin) none = some m
      ∧ truncHour m ≤ 8 * usecPerHour)
    ∧ 8 * usecPerHour
        ≤ truncDay (10 * usecPerHour + 45 * usecPerMin) + 21 * usecPerHour :=
  claim_C2
    [⟨8 * usecPerHour + 30 * usecPerMin, "A", 1, 1, 1, 1, 1, 5⟩,
     ⟨15 * usecPerHour + 30 * usecPerMin, "A", 2, 2, 2, 2, 2, 10⟩]
    (10 * usecPerHour + 45 * usecPerMin) none
    ⟨8 * usecPerHour, "A", 1, 1, 1, 1, 1, 5⟩ (by decide)

/-- C6: the daily aggregation range is
`[start_date 00:00:00.000000, end_date 23:59:59.999999]`; `start_date`
defaults to yesterday (`now - 24h` truncated to the day), `end_date`
defaults to `start_date`; and with `start_date = "2024-03-01"` and no
`end_date` every returned bucket lies within that single day. -/
theorem claim_C6 (now start : Nat) (db : List Rec) (iv : Int) (cam : Option String) :
    parseStartDT now none = some (truncDay (now - usecPerDay))
    ∧ (∀ s t, fromisoformat s = some t → parseStartDT now (some s) = some (truncDay t))
    ∧ parseEndDT start none = some (start + (usecPerDay - 1))
    ∧ (∀ e t, fromisoformat e = some t →
        parseEndDT start (some e) = some (truncDay t + (usecPerDay - 1)))
    ∧ (∀ rows row, getDaily db now iv (some "2024-03-01") none cam = .ok rows →
        row ∈ rows →
        dateUsec 2024 3 1 ≤ row.timestamp
          ∧ row.timestamp ≤ dateUsec 2024 3 1 + (usecPerDay - 1)) := by
  refine ⟨rfl, ?_, rfl, ?_, ?_⟩
  · intro s t h
    simp [parseStartDT, h]
  · intro e t h
    simp [parseEndDT, h]
  · intro rows row hrows hrow
    have hs : parseStartDT now (some "2024-03-01") = some (dateUsec 2024 3 1) := by
      have hp : fromisoformat "2024-03-01" = some (dateUsec 2024 3 1) := by decide
      simp [parseStartDT, hp, truncDay_dateUsec]
    have he : parseEndDT (dateUsec 2024 3 1) none
        = some (dateUsec 2024 3 1 + (usecPerDay - 1)) := rfl
    exact getDaily_row_range hs he (dateUsec_mod_hour 2024 3 1) hrows hrow

/-- C6 witness: defaults and a concrete in-day bucket. -/
theorem claim_C6_witness :
    parseStartDT (2 * usecPerDay) none = some (truncDay (2 * usecPerDay - usecPerDay))
    ∧ parseStartDT (2 * usecPerDay) (some "2024-03-02")
        = some (truncDay (dateUsec 2024 3 2))
    ∧ parseEndDT (dateUsec 2024 3 1) none = some (dateUsec 2024 3 1 + (usecPerDay - 1))
    ∧ (dateUsec 2024 3 1 ≤ (⟨dateUsec 2024 3 1, "A", 1, 1, 1, 1, 1, 5⟩ : Row).timestamp
        ∧ (⟨dateUsec 2024 3 1, "A", 1, 1, 1, 1, 1, 5⟩ : Row).timestamp
            ≤ dateUsec 2024 3 1 + (usecPerDay - 1)) :=
  ⟨(claim_C6 (2 * usecPerDay) 0 [] 10 none).1,
   (claim_C6 (2 * usecPerDay) 0 [] 10 none).2.1 "2024-03-02" (dateUsec 2024 3 2) (by decide),
   (claim_C6 0 (dateUsec 2024 3 1) [] 10 none).2.2.1,
   (claim_C6 0 0 [⟨dateUsec 2024 3 1 + 5 * usecPerMin, "A", 1, 1, 1, 1, 1, 5⟩] 10
      none).2.2.2.2 [⟨dateUsec 2024 3 1, "A", 1, 1, 1, 1, 1, 5⟩]
     ⟨dateUsec 2024 3 1, "A", 1, 1, 1, 1, 1, 5⟩ (by rfl) (by simp)⟩

/-- C8: N records in one 10-minute window sharing one camera, aggregated
daily with `interval_minutes = 10` over a range containing them, produce
exactly one bucket whose five category sums and total are the arithmetic
sums of the records' stored fields (the total is summed as stored, not
recomputed from the categories). -/
theorem claim_C8 (db : List Rec) (now : Nat) (sd ed : Option String)
    (start e b : Nat) (c : String)
    (hs : parseStartDT now sd = some start)
    (he : parseEndDT start ed = some e)
    (hne : db ≠ [])
    (hcam : ∀ r ∈ db, r.camera_id = c)
    (hb : ∀ r ∈ db, dailyBucket 10 r.timestamp = b)
    (hrange : ∀ r ∈ db, start ≤ r.timestamp ∧ r.timestamp ≤ e) :
    getDaily db now 10 sd ed none =
      .ok [{ timestamp := b, camera_id := c,
             car := (db.map (fun r => r.car)).sum,
             bike := (db.map (fun r => r.bike)).sum,
             truck := (db.map (fun r => r.truck)).sum,
             bus := (db.map (fun r => r.bus)).sum,
             auto := (db.map (fun r => r.auto)).sum,
             total := (db.map (fun r => r.total)).sum }] := by
  have hfilter : db.filter
      (fun r => decide (start ≤ r.timestamp ∧ r.timestamp ≤ e)) = db :=
    List.filter_eq_self.mpr (fun r hr => by simpa using hrange r hr)
  have hkeys : (db.map (fun r => (dailyBucket 10 r.timestamp, r.camera_id))).dedup
      = [(b, c)] :=
    dedup_map_const _ (b, c) db hne (fun r hr => by simp [hb r hr, hcam r hr])
  have hfilter2 : db.filter
      (fun r => decide (dailyBucket 10 r.timestamp = (b, c).1 ∧ r.camera_id = (b, c).2))
      = db :=
    List.filter_eq_self.mpr (fun r hr => by simp [hb r hr, hcam r hr])
  have hinner : getDailyInner db now 10 sd ed none =
      .ok (aggregateBy (dailyBucket 10) db) := by
    simp only [getDailyInner, hs, he]
    rw [show (clampInterval 10).toNat = 10 from by decide]
    rw [show camFilter none (db.filter
      (fun r => decide (start ≤ r.timestamp ∧ r.timestamp ≤ e))) = db from hfilter]
  unfold getDaily
  rw [hinner]
  unfold aggregateBy groupKeys
  rw [hkeys]
  rw [show ([((b, c) : Nat × String)]).insertionSort (fun a b => a.1 ≤ b.1)
      = [(b, c)] from rfl]
  rw [List.map_singleton, hfilter2]
  simp [mkRow, sumBy]

/-- C8 witness: two records at minutes 3 and 7 of the same 10-minute
window (with totals deliberately unrelated to the category sums) collapse
into one bucket of componentwise sums. -/
theorem claim_C8_witness :
    getDaily
      [⟨dateUsec 2024 3 1 + 3 * usecPerMin, "A", 1, 2, 3, 4, 5, 100⟩,
       ⟨dateUsec 2024 3 1 + 7 * usecPerMin, "A", 10, 20, 30, 40, 50, 7⟩]
      0 10 (some "2024-03-01") none none =
      .ok [{ timestamp := dateUsec 2024 3 1, camera_id := "A",
             car := 11, bike := 22, truck := 33,
             bus := 44, auto := 55, total := 107 }] :=
  claim_C8
    [⟨dateUsec 2024 3 1 + 3 * usecPerMin, "A", 1, 2, 3, 4, 5, 100⟩,
     ⟨dateUsec 2024 3 1 + 7 * usecPerMin, "A", 10, 20, 30, 40, 50, 7⟩]
    0 (some "2024-03-01") none (dateUsec 2024 3 1)
    (dateUsec 2024 3 1 + (usecPerDay - 1)) (dateUsec 2024 3 1) "A"
    (by decide) (by rfl) (by decide) (by decide) (by decide) (by decide)

/-- C10: `start_date`/`end_date` accept full ISO datetime strings such as
`"2024-03-01T15:30:00"`, not only `YYYY-MM-DD`; any time-of-day is
discarded — the start bound is normalized to 00:00:00.000000 and the end
bound to 23:59:59.999999 of the named day — so a timed string behaves
exactly like its date-only form on both the daily and summary endpoints. -/
theorem claim_C10 (db : List Rec) (now start : Nat) (iv : Int) (cam : Option String) :
    fromisoformat "2024-03-01T15:30:00"
        = some (dateUsec 2024 3 1 + 15 * usecPerHour + 30 * usecPerMin)
    ∧ (∀ s t, fromisoformat s = some t →
        parseStartDT now (some s) = some (truncDay t)
        ∧ parseEndDT start (some s) = some (truncDay t + (usecPerDay - 1))
        ∧ summaryStart now (some s) = some (truncDay t))
    ∧ getDaily db now iv (some "2024-03-01T15:30:00") (some "2024-03-01T15:30:00") cam
        = getDaily db now iv (some "2024-03-01") (some "2024-03-01") cam
    ∧ getSummary db now (some "2024-03-01T15:30:00") cam
        = getSummary db now (some "2024-03-01") cam := by
  have hA : fromisoformat "2024-03-01T15:30:00"
      = some (dateUsec 2024 3 1 + 15 * usecPerHour + 30 * usecPerMin) := by decide
  have hB : fromisoformat "2024-03-01" = some (dateUsec 2024 3 1) := by decide
  have htrA : truncDay (dateUsec 2024 3 1 + 15 * usecPerHour + 30 * usecPerMin)
      = dateUsec 2024 3 1 := by decide
  have htrB : truncDay (dateUsec 2024 3 1) = dateUsec 2024 3 1 :=
    truncDay_dateUsec 2024 3 1
  refine ⟨hA, ?_, ?_, ?_⟩
  · intro s t h
    exact ⟨by simp [parseStartDT, h], by simp [parseEndDT, h], by simp [summaryStart, h]⟩
  · simp [getDaily, getDailyInner, parseStartDT, parseEndDT, hA, hB, htrA, htrB]
  · simp [getSummary, getSummaryInner, summaryStart, hA, hB, htrA, htrB]

/-- C10 witness: the timed string is accepted, normalized to the day
bounds, and summary-equivalent to the date-only string. -/
theorem claim_C10_witness :
    parseStartDT 0 (some "2024-03-01T15:30:00") = some (dateUsec 2024 3 1)
    ∧ parseEndDT 0 (some "2024-03-01T15:30:00")
        = some (dateUsec 2024 3 1 + (usecPerDay - 1))
    ∧ getSummary [] 0 (some "2024-03-01T15:30:00") none
        = getSummary [] 0 (some "2024-03-01") none := by
  have base := claim_C10 ([] : List Rec) 0 0 10 none
  have h5 := base.2.1 "2024-03-01T15:30:00"
    (dateUsec 2024 3 1 + 15 * usecPerHour + 30 * usecPerMin) base.1
  exact ⟨h5.1.trans (by decide), h5.2.1.trans (by decide), base.2.2.2⟩

end VehicleDashboard
